import Mathlib

/-
Verification development for pyGWBSE's `parse_outputs.py` (the `BSEToDb`
firetask). The Python task is shallowly embedded: JSON-like values become
the inductive `JVal`, Python dicts become association lists (`PyDict`),
the external collaborators (atomate's `get_calc_loc` and `env_chk`,
pymatgen's `VaspDrone.assimilate` and `get_vasprun_outcar`, monty's
`jsanitize`, the `VaspCalcDb` database client and the filesystem) become
an explicit environment `Env` of possibly-failing operations, and
`run_task` becomes a pure function returning a trace of the externally
visible effects together with the task's result.
-/

set_option autoImplicit false

namespace PyGWBSE

/-- JSON-like values: the data manipulated by the task. `dt` models a
Python `datetime` object (carrying its isoformat string), which plain
`json.dumps` cannot serialize but the datetime-aware encoders can. -/
inductive JVal where
  | null : JVal
  | b : Bool → JVal
  | num : Int → JVal
  | str : String → JVal
  | dt : String → JVal
  | arr : List JVal → JVal
  | obj : List (String × JVal) → JVal

/-- A Python dict with string keys, as an association list (first
occurrence of a key is the binding, as produced by dict operations). -/
abbrev PyDict : Type := List (String × JVal)

/-- Python `d[k]` lookup (`none` models a `KeyError`). -/
def getKey? : PyDict → String → Option JVal
  | [], _ => none
  | (k, v) :: rest, key => if k = key then some v else getKey? rest key

/-- Python `d[k] = v`: replace the binding in place, or append. -/
def setKey : PyDict → String → JVal → PyDict
  | [], key, v => [(key, v)]
  | (k, w) :: rest, key, v =>
      if k = key then (k, v) :: rest else (k, w) :: setKey rest key v

/-- Python `del d[k]` after the key is known present: remove the key. -/
def delKey : PyDict → String → PyDict
  | [], _ => []
  | (k, w) :: rest, key =>
      if k = key then delKey rest key else (k, w) :: delKey rest key

/-- Python truthiness of a value (`if not db_file:` etc.). -/
def truthyV : JVal → Bool
  | .null => false
  | .b x => x
  | .num n => decide (n ≠ 0)
  | .str s => decide (s ≠ "")
  | .dt _ => true
  | .arr xs => !xs.isEmpty
  | .obj fs => !fs.isEmpty

/-- Truthiness of an optional parameter (`self.get(k)` returns `None`
when absent, which is falsy). -/
def truthyOpt : Option JVal → Bool
  | none => false
  | some v => truthyV v

/-- monty's `jsanitize` on a string-keyed dict: keys are kept and each
value is sanitized; the value-level sanitizer is a parameter. -/
def jsanitizeRec (f : JVal → JVal) (d : PyDict) : PyDict :=
  d.map (fun kv => (kv.1, f kv.2))

/-- `os.path.join` for the simple relative-filename case used here. -/
def joinPath (a bname : String) : String := a ++ "/" ++ bname

mutual
/-- `json.dumps` on a `JVal`, parameterized by the encoder's handler for
datetime objects (the only non-primitive values in `JVal`). -/
def dumpVal (h : String → String) : JVal → String
  | .null => "null"
  | .b true => "true"
  | .b false => "false"
  | .num n => toString n
  | .str s => "\x22" ++ s ++ "\x22"
  | .dt iso => h iso
  | .arr xs => "[" ++ dumpElems h xs ++ "]"
  | .obj fs => "\x7b" ++ dumpFields h fs ++ "\x7d"

/-- Array elements, comma separated (default `json.dumps` separators). -/
def dumpElems (h : String → String) : List JVal → String
  | [] => ""
  | [x] => dumpVal h x
  | x :: y :: xs => dumpVal h x ++ ", " ++ dumpElems h (y :: xs)

/-- Object members, comma separated. -/
def dumpFields (h : String → String) : List (String × JVal) → String
  | [] => ""
  | [(k, v)] => "\x22" ++ k ++ "\x22: " ++ dumpVal h v
  | (k, v) :: f :: fs =>
      "\x22" ++ k ++ "\x22: " ++ dumpVal h v ++ ", " ++ dumpFields h (f :: fs)
end

/-- fireworks' `DATETIME_HANDLER`: a datetime serializes as its
isoformat string. -/
def isoHandler (iso : String) : String := "\x22" ++ iso ++ "\x22"

/-- monty's `MontyEncoder` default for datetimes: an `@module`/`@class`
tagged object. -/
def montyHandler (iso : String) : String :=
  "\x7b\x22@module\x22: \x22datetime\x22, \x22@class\x22: \x22datetime\x22, \x22string\x22: \x22"
    ++ iso ++ "\x22\x7d"

/-- `json.dumps(d, default=DATETIME_HANDLER)` on a dict. -/
def json_dumps_dt (d : PyDict) : String := dumpVal isoHandler (.obj d)

/-- `json.dumps(v, cls=MontyEncoder)`. -/
def json_dumps_monty (v : JVal) : String := dumpVal montyHandler v

/-- The task's optional parameters (`BSEToDb.optional_params`); each is
absent (`none`) or set to an arbitrary value. -/
structure TaskConfig where
  gwcalc_dir : Option JVal := none
  parse_dos : Option JVal := none
  bandstructure_mode : Option JVal := none
  additional_fields : Option JVal := none
  db_file : Option JVal := none
  fw_spec_field : Option JVal := none
  defuse_unsuccessful : Option JVal := none
  task_fields_to_push : Option JVal := none
  parse_chgcar : Option JVal := none
  parse_aeccar : Option JVal := none
  parse_potcar_file : Option JVal := none
  parse_bader : Option JVal := none
  store_volumetric_data : Option JVal := none

/-- The keyword arguments the task passes to the `VaspDrone` constructor. -/
structure DroneSettings where
  additional_fields : Option JVal
  parse_dos : JVal
  parse_potcar_file : JVal
  bandstructure_mode : JVal
  parse_bader : JVal
  parse_chgcar : JVal
  parse_aeccar : JVal
  store_volumetric_data : JVal

/-- What `get_vasprun_outcar` returns, restricted to the attributes the
task reads from the `Vasprun` object. -/
structure VrunData where
  final_structure : JVal
  optical_transition : JVal
  dielectric : JVal

/-- Failures: a Python `KeyError` raised by the task's own dict
subscripts, or an exception raised inside an external collaborator. -/
inductive Err where
  | keyError : String → Err
  | opFail : String → Err
deriving DecidableEq

/-- The environment of external collaborators, each modelled as an
uninterpreted, possibly-failing operation. -/
structure Env where
  cwd : String
  bader_exe_exists : Bool
  store_volumetric_data_default : JVal
  getCalcLoc : JVal → JVal → Except Err PyDict
  assimilate : DroneSettings → JVal → Except Err PyDict
  getVasprunOutcar : String → Bool → Bool → Except Err VrunData
  envChk : Option JVal → PyDict → Option JVal
  sanitizeVal : JVal → JVal
  fromDbFile : JVal → Bool → Except Err Unit
  insertGridfs : String → String → Bool → Except Err (String × String)
  writeFile : String → String → Except Err Unit
  insertOne : String → PyDict → Except Err Unit

/-- fireworks' `FWAction` (opaque here; the task never constructs one). -/
structure FWAction where
  payload : PyDict

/-- One successful file write: path, the dict that was serialized, and
the serialized text. -/
structure FileEff where
  path : String
  record : PyDict
  content : String

/-- One successful GridFS insert: collection, serialized payload,
compress flag, and the value that was serialized. -/
structure GridfsEff where
  collection : String
  payload : String
  compress : Bool
  value : JVal

/-- One successful document insert. -/
structure DocEff where
  collection : String
  doc : PyDict

/-- The externally visible behavior of one invocation: calls attempted
on the two readers, and the writes that succeeded. -/
structure Trace where
  parses : List (DroneSettings × JVal)
  vrunReads : List String
  files : List FileEff
  gridfs : List GridfsEff
  docs : List DocEff

def Trace.empty : Trace := ⟨[], [], [], [], []⟩

/-- Result of one invocation: effect trace, the (unchanged) `fw_spec`
handed back to the orchestrator, and the returned value or error. -/
structure RunOut where
  trace : Trace
  fwSpecOut : PyDict
  result : Except Err (Option FWAction)

/-- The calc-dir resolution expression:
`get_calc_loc(self["gwcalc_dir"], fw_spec["calc_locs"]) if self.get("gwcalc_dir") else {}`. -/
def resolveCalcDir (cfg : TaskConfig) (fw_spec : PyDict) (env : Env) : Except Err PyDict :=
  if truthyOpt cfg.gwcalc_dir then
    match cfg.gwcalc_dir with
    | none => .error (.keyError "gwcalc_dir")
    | some gw =>
      match getKey? fw_spec "calc_locs" with
      | none => .error (.keyError "calc_locs")
      | some locs => env.getCalcLoc gw locs
  else .ok []

/-- The `VaspDrone(...)` keyword arguments, with the defaults the task
supplies for absent parameters. -/
def droneSettings (cfg : TaskConfig) (env : Env) : DroneSettings where
  additional_fields := cfg.additional_fields
  parse_dos := cfg.parse_dos.getD (.b false)
  parse_potcar_file := cfg.parse_potcar_file.getD (.b true)
  bandstructure_mode := cfg.bandstructure_mode.getD (.b false)
  parse_bader := cfg.parse_bader.getD (.b env.bader_exe_exists)
  parse_chgcar := cfg.parse_chgcar.getD (.b false)
  parse_aeccar := cfg.parse_aeccar.getD (.b false)
  store_volumetric_data := cfg.store_volumetric_data.getD env.store_volumetric_data_default

/-- Lines 96-101 of the source: `structure = vrun.final_structure` is
bound but never written into `d`; only the two arrays are attached. -/
def augment (d : PyDict) (vrun : VrunData) : PyDict :=
  let _structure := vrun.final_structure
  setKey (setKey d "optical_transition" vrun.optical_transition)
    "dielectric" vrun.dielectric

/-- The `if not db_file:` branch: delete `optical_transition` (a Python
`del`, so a `KeyError` if absent) and write `BSE.json` in the current
working directory with the datetime-aware encoder. -/
def fileSink (env : Env) (fw_spec : PyDict) (tr : Trace) (d : PyDict) : RunOut :=
  match getKey? d "optical_transition" with
  | none => ⟨tr, fw_spec, .error (.keyError "optical_transition")⟩
  | some _ =>
    let d2 := delKey d "optical_transition"
    let path := joinPath env.cwd "BSE.json"
    let content := json_dumps_dt d2
    match env.writeFile path content with
    | .error e => ⟨tr, fw_spec, .error e⟩
    | .ok _ =>
      ⟨{ tr with files := tr.files ++ [⟨path, d2, content⟩] }, fw_spec, .ok none⟩

/-- The `else:` branch: connect, insert both payloads into GridFS
(compressed), set the two id fields (one misspelt in the source), delete
the raw fields, and insert the document into `BSE_results`. -/
def dbSink (env : Env) (fw_spec : PyDict) (tr : Trace) (dbf : JVal) (d : PyDict) : RunOut :=
  match env.fromDbFile dbf true with
  | .error e => ⟨tr, fw_spec, .error e⟩
  | .ok _ =>
    match getKey? d "optical_transition" with
    | none => ⟨tr, fw_spec, .error (.keyError "optical_transition")⟩
    | some otv =>
      let otPayload := json_dumps_monty otv
      match env.insertGridfs "optical_transition_fs" otPayload true with
      | .error e => ⟨tr, fw_spec, .error e⟩
      | .ok (fsid1, _c1) =>
        let tr1 := { tr with gridfs := tr.gridfs ++ [⟨"optical_transition_fs", otPayload, true, otv⟩] }
        let d1 := setKey d "optical_transtiion_fs_id" (.str fsid1)
        match getKey? d1 "dielectric" with
        | none => ⟨tr1, fw_spec, .error (.keyError "dielectric")⟩
        | some dev =>
          let dePayload := json_dumps_monty dev
          match env.insertGridfs "dielectric_fs" dePayload true with
          | .error e => ⟨tr1, fw_spec, .error e⟩
          | .ok (fsid2, _c2) =>
            let tr2 := { tr1 with gridfs := tr1.gridfs ++ [⟨"dielectric_fs", dePayload, true, dev⟩] }
            let d2 := setKey d1 "dielectric_fs_id" (.str fsid2)
            match getKey? d2 "dielectric" with
            | none => ⟨tr2, fw_spec, .error (.keyError "dielectric")⟩
            | some _ =>
              let d3 := delKey d2 "dielectric"
              match getKey? d3 "optical_transition" with
              | none => ⟨tr2, fw_spec, .error (.keyError "optical_transition")⟩
              | some _ =>
                let d4 := delKey d3 "optical_transition"
                match env.insertOne "BSE_results" d4 with
                | .error e => ⟨tr2, fw_spec, .error e⟩
                | .ok _ =>
                  ⟨{ tr2 with docs := tr2.docs ++ [⟨"BSE_results", d4⟩] }, fw_spec, .ok none⟩

/-- `BSEToDb.run_task`, embedded step by step in source order: resolve
the calc dir, build the drone, assimilate `calc_dir["path"]`, re-read
`os.getcwd()` with `get_vasprun_outcar(bse_dir, False, False)`, augment,
resolve `db_file` via `env_chk`, `jsanitize`, then branch on truthiness
of `db_file`. The Python function has no `return`, hence `.ok none`. -/
def run_task (cfg : TaskConfig) (fw_spec : PyDict) (env : Env) : RunOut :=
  match resolveCalcDir cfg fw_spec env with
  | .error e => ⟨Trace.empty, fw_spec, .error e⟩
  | .ok calc_dir =>
    let ds := droneSettings cfg env
    match getKey? calc_dir "path" with
    | none => ⟨Trace.empty, fw_spec, .error (.keyError "path")⟩
    | some pathV =>
      let tr0 : Trace := { Trace.empty with parses := [(ds, pathV)] }
      match env.assimilate ds pathV with
      | .error e => ⟨tr0, fw_spec, .error e⟩
      | .ok d0 =>
        let bse_dir := env.cwd
        let tr1 := { tr0 with vrunReads := [bse_dir] }
        match env.getVasprunOutcar bse_dir false false with
        | .error e => ⟨tr1, fw_spec, .error e⟩
        | .ok vrun =>
          let d1 := augment d0 vrun
          let db_file := env.envChk cfg.db_file fw_spec
          let d2 := jsanitizeRec env.sanitizeVal d1
          match db_file with
          | none => fileSink env fw_spec tr1 d2
          | some dbf =>
            match truthyV dbf with
            | true => dbSink env fw_spec tr1 dbf d2
            | false => fileSink env fw_spec tr1 d2

/-- The `FWAction` (if any) carried by a task result. -/
def resultAction (r : Except Err (Option FWAction)) : Option FWAction :=
  match r with
  | .ok a => a
  | .error _ => none

/-- Concrete config: only `gwcalc_dir` set (file-sink invocation). -/
def cfgGW : TaskConfig := { gwcalc_dir := some (.str "gw1") }

/-- Concrete config: `gwcalc_dir` and `db_file` set (database-sink
invocation). -/
def cfgDb : TaskConfig :=
  { gwcalc_dir := some (.str "gw1"), db_file := some (.str "db.json") }

/-- Concrete `fw_spec` with a `calc_locs` entry. -/
def fwSpecC : PyDict := [("calc_locs", .arr [.obj [("name", .str "gw1"), ("path", .str "/gw")]])]

/-- Concrete environment in which every external operation succeeds:
the calc loc resolves to `/gw`, the current working directory is `/bse`,
the drone yields a one-field record, the secondary reader yields a
structure and two numeric payloads, and `env_chk` is the identity on
literal values. -/
def envOkC : Env where
  cwd := "/bse"
  bader_exe_exists := false
  store_volumetric_data_default := .null
  getCalcLoc := fun _ _ => .ok [("path", .str "/gw")]
  assimilate := fun _ _ => .ok [("task_label", .str "bse run")]
  getVasprunOutcar := fun _ _ _ => .ok ⟨.str "STRUCT", .num 1, .num 7⟩
  envChk := fun x _ => x
  sanitizeVal := id
  fromDbFile := fun _ _ => .ok ()
  insertGridfs := fun c _ _ => .ok ("id:" ++ c, "zlib")
  writeFile := fun _ _ => .ok ()
  insertOne := fun _ _ => .ok ()

/-- Like `envOkC` but the primary parse raises. -/
def envParseFailC : Env :=
  { envOkC with assimilate := fun _ _ => .error (.opFail "parse failed") }

/-- The file effect produced by `run_task cfgGW fwSpecC envOkC`. -/
def fEffC : FileEff :=
  ⟨joinPath envOkC.cwd "BSE.json",
   [("task_label", JVal.str "bse run"), ("dielectric", JVal.num 7)],
   json_dumps_dt [("task_label", JVal.str "bse run"), ("dielectric", JVal.num 7)]⟩

theorem getKey_setKey_self (d : PyDict) (k : String) (v : JVal) :
    getKey? (setKey d k v) k = some v := by
  induction d with
  | nil => simp [setKey, getKey?]
  | cons kv rest ih =>
    obtain ⟨k0, w⟩ := kv
    by_cases h : k0 = k <;> simp [setKey, getKey?, h, ih]

theorem getKey_setKey_ne (d : PyDict) (k k' : String) (v : JVal) (h : k' ≠ k) :
    getKey? (setKey d k v) k' = getKey? d k' := by
  induction d with
  | nil => simp [setKey, getKey?, h.symm]
  | cons kv rest ih =>
    obtain ⟨k0, w⟩ := kv
    by_cases h0 : k0 = k
    · subst h0
      simp [setKey, getKey?, h.symm]
    · simp [setKey, getKey?, h0, ih]

theorem getKey_delKey_self (d : PyDict) (k : String) :
    getKey? (delKey d k) k = none := by
  induction d with
  | nil => simp [delKey, getKey?]
  | cons kv rest ih =>
    obtain ⟨k0, w⟩ := kv
    by_cases h : k0 = k <;> simp [delKey, getKey?, h, ih]

theorem getKey_delKey_ne (d : PyDict) (k k' : String) (h : k' ≠ k) :
    getKey? (delKey d k) k' = getKey? d k' := by
  induction d with
  | nil => simp [delKey, getKey?]
  | cons kv rest ih =>
    obtain ⟨k0, w⟩ := kv
    by_cases h0 : k0 = k
    · subst h0
      simp [delKey, getKey?, h.symm, ih]
    · simp [delKey, getKey?, h0, ih]

theorem getKey_jsanitize (f : JVal → JVal) (d : PyDict) (k : String) :
    getKey? (jsanitizeRec f d) k = (getKey? d k).map f := by
  induction d with
  | nil => simp [jsanitizeRec, getKey?]
  | cons kv rest ih =>
    obtain ⟨k0, w⟩ := kv
    by_cases h : k0 = k <;> simp_all [jsanitizeRec, getKey?, h]

theorem getKey_augment_ot (d : PyDict) (v : VrunData) :
    getKey? (augment d v) "optical_transition" = some v.optical_transition := by
  unfold augment
  rw [getKey_setKey_ne _ _ _ _ (by decide), getKey_setKey_self]

theorem getKey_augment_de (d : PyDict) (v : VrunData) :
    getKey? (augment d v) "dielectric" = some v.dielectric := by
  unfold augment
  rw [getKey_setKey_self]

/-- C10: `run_task` returns `None` (never an `FWAction`) and hands
`fw_spec` back to the orchestrator unchanged: the shared orchestration
state is only read, never mutated, and no fields are pushed back. -/
theorem c10_returns_none_no_spec_mutation (cfg : TaskConfig) (fw_spec : PyDict) (env : Env) :
    (run_task cfg fw_spec env).fwSpecOut = fw_spec ∧
    resultAction (run_task cfg fw_spec env).result = none := by
  simp only [run_task, fileSink, dbSink]
  repeat' split
  all_goals exact ⟨rfl, rfl⟩

/-- C9: the accepted parameters `fw_spec_field`, `defuse_unsuccessful`
and `task_fields_to_push` have no effect: changing only them leaves the
entire observable outcome of `run_task` (trace, spec, result) equal. -/
theorem c9_unused_params_no_effect (cfg : TaskConfig) (fw_spec : PyDict) (env : Env)
    (x y z : Option JVal) :
    run_task
      { cfg with fw_spec_field := x, defuse_unsuccessful := y, task_fields_to_push := z }
      fw_spec env
      = run_task cfg fw_spec env := by
  cases cfg
  rfl

/-- C2: with the empty config (no `db_file`, no `gwcalc_dir`), `run_task`
does not produce `BSE.json`: `calc_dir` is the empty dict and
`calc_dir["path"]` raises `KeyError: "path"` before anything is parsed
or written. This contradicts the documented scenario (the spec's §8
empty-config scenario and the class docstring's file-sink default). -/
theorem c2_empty_config_keyerror :
    run_task {} [] envOkC = ⟨Trace.empty, [], .error (.keyError "path")⟩ := by
  rfl

/-- C5: at the augmentation step the code binds `vrun.final_structure`
to a local that is never written into the record (despite the
`# add the structure` comment): augmenting the empty record attaches
only `optical_transition` and `dielectric`, and the structure value
`JVal.str "STRUCT"` appears nowhere in the augmented record. -/
theorem c5_structure_not_attached :
    augment [] ⟨JVal.str "STRUCT", JVal.num 1, JVal.num 7⟩
      = [("optical_transition", JVal.num 1), ("dielectric", JVal.num 7)] ∧
    (augment [] ⟨JVal.str "STRUCT", JVal.num 1, JVal.num 7⟩).map Prod.snd
      = [JVal.num 1, JVal.num 7] := by
  exact ⟨rfl, rfl⟩

/-- C6 (amended): the secondary reader (`get_vasprun_outcar`) always
reads the current working directory, whatever `gwcalc_dir` resolves to. -/
theorem c6_secondary_always_cwd (cfg : TaskConfig) (fw_spec : PyDict) (env : Env)
    (p : String) (h : p ∈ (run_task cfg fw_spec env).trace.vrunReads) : p = env.cwd := by
  simp only [run_task, fileSink, dbSink] at h
  repeat' split at h
  all_goals simp_all [Trace.empty]

/-- C6 (counterexample): with `gwcalc_dir` resolving to `/gw` while the
task runs in `/bse`, the primary parser assimilates `/gw` but the
secondary reader reads `/bse`, a different directory. -/
theorem c6_counterexample :
    (run_task cfgGW fwSpecC envOkC).trace.parses.map Prod.snd = [JVal.str "/gw"] ∧
    (run_task cfgGW fwSpecC envOkC).trace.vrunReads = ["/bse"] ∧
    envOkC.cwd = "/bse" ∧
    (("/gw" : String) == "/bse") = false := by
  exact ⟨rfl, rfl, rfl, rfl⟩

/-- C7: every `VaspDrone` construction performed by `run_task` uses
exactly the configuration-derived flags, with `parse_dos` defaulting to
false, `parse_potcar_file` to true, `bandstructure_mode` to false,
`parse_bader` to the environment's Bader capability, `parse_chgcar` and
`parse_aeccar` to false, `store_volumetric_data` to the global config
default, and `additional_fields` passed through unchanged. -/
theorem c7_drone_flags (cfg : TaskConfig) (fw_spec : PyDict) (env : Env)
    (ds : DroneSettings) (p : JVal)
    (h : (ds, p) ∈ (run_task cfg fw_spec env).trace.parses) :
    ds.parse_dos = cfg.parse_dos.getD (.b false) ∧
    ds.parse_potcar_file = cfg.parse_potcar_file.getD (.b true) ∧
    ds.bandstructure_mode = cfg.bandstructure_mode.getD (.b false) ∧
    ds.parse_bader = cfg.parse_bader.getD (.b env.bader_exe_exists) ∧
    ds.parse_chgcar = cfg.parse_chgcar.getD (.b false) ∧
    ds.parse_aeccar = cfg.parse_aeccar.getD (.b false) ∧
    ds.store_volumetric_data = cfg.store_volumetric_data.getD env.store_volumetric_data_default ∧
    ds.additional_fields = cfg.additional_fields := by
  simp only [run_task, fileSink, dbSink] at h
  repeat' split at h
  all_goals simp_all [Trace.empty]
  all_goals (obtain ⟨h1, h2⟩ := h; subst h1; simp [droneSettings])

/-- C8: no failure is caught and nothing is retried: on any error the
task inserts no document and writes no file (orphan blob inserts may
remain, matching the acknowledged lack of cross-write atomicity), and
each external operation is attempted at most once (two blob inserts). -/
theorem c8_no_catch_no_retry (cfg : TaskConfig) (fw_spec : PyDict) (env : Env) :
    (∀ e, (run_task cfg fw_spec env).result = .error e →
        (run_task cfg fw_spec env).trace.docs = [] ∧
        (run_task cfg fw_spec env).trace.files = []) ∧
    (run_task cfg fw_spec env).trace.parses.length ≤ 1 ∧
    (run_task cfg fw_spec env).trace.vrunReads.length ≤ 1 ∧
    (run_task cfg fw_spec env).trace.files.length ≤ 1 ∧
    (run_task cfg fw_spec env).trace.gridfs.length ≤ 2 ∧
    (run_task cfg fw_spec env).trace.docs.length ≤ 1 := by
  simp only [run_task, fileSink, dbSink]
  repeat' split
  all_goals refine ⟨fun e he => ?_, ?_, ?_, ?_, ?_, ?_⟩
  all_goals simp_all [Trace.empty]

theorem getKey_docRec_msp (D : PyDict) (i1 i2 : JVal) :
    getKey? (delKey (delKey (setKey (setKey D "optical_transtiion_fs_id" i1)
        "dielectric_fs_id" i2) "dielectric") "optical_transition")
      "optical_transtiion_fs_id" = some i1 := by
  rw [getKey_delKey_ne _ "optical_transition" "optical_transtiion_fs_id" (by decide),
    getKey_delKey_ne _ "dielectric" "optical_transtiion_fs_id" (by decide),
    getKey_setKey_ne _ "dielectric_fs_id" "optical_transtiion_fs_id" i2 (by decide),
    getKey_setKey_self]

theorem getKey_docRec_deid (D : PyDict) (i1 i2 : JVal) :
    getKey? (delKey (delKey (setKey (setKey D "optical_transtiion_fs_id" i1)
        "dielectric_fs_id" i2) "dielectric") "optical_transition")
      "dielectric_fs_id" = some i2 := by
  rw [getKey_delKey_ne _ "optical_transition" "dielectric_fs_id" (by decide),
    getKey_delKey_ne _ "dielectric" "dielectric_fs_id" (by decide),
    getKey_setKey_self]

theorem getKey_docRec_ot (D : PyDict) (i1 i2 : JVal) :
    getKey? (delKey (delKey (setKey (setKey D "optical_transtiion_fs_id" i1)
        "dielectric_fs_id" i2) "dielectric") "optical_transition")
      "optical_transition" = none := by
  rw [getKey_delKey_self]

theorem getKey_docRec_de (D : PyDict) (i1 i2 : JVal) :
    getKey? (delKey (delKey (setKey (setKey D "optical_transtiion_fs_id" i1)
        "dielectric_fs_id" i2) "dielectric") "optical_transition")
      "dielectric" = none := by
  rw [getKey_delKey_ne _ "optical_transition" "dielectric" (by decide),
    getKey_delKey_self]

theorem getKey_setKey2_msp (D : PyDict) (i1 i2 : JVal) :
    getKey? (setKey (setKey D "optical_transtiion_fs_id" i1) "dielectric_fs_id" i2)
      "optical_transtiion_fs_id" = some i1 := by
  rw [getKey_setKey_ne _ "dielectric_fs_id" "optical_transtiion_fs_id" i2 (by decide),
    getKey_setKey_self]

theorem getKey_setKey2_deid (D : PyDict) (i1 i2 : JVal) :
    getKey? (setKey (setKey D "optical_transtiion_fs_id" i1) "dielectric_fs_id" i2)
      "dielectric_fs_id" = some i2 :=
  getKey_setKey_self _ _ _

/-- C3: whenever the `env_chk`-resolved `db_file` is falsy, `run_task`
performs no blob insert and no document insert (the database branch is
never taken), and any file it writes is the JSON serialization — with
the datetime-aware encoder — of the sanitized record with
`optical_transition` deleted and `dielectric` still present, at the
fixed path `BSE.json` in the current working directory. -/
theorem c3_file_sink (cfg : TaskConfig) (fw_spec : PyDict) (env : Env)
    (hdb : truthyOpt (env.envChk cfg.db_file fw_spec) = false) :
    (run_task cfg fw_spec env).trace.gridfs = [] ∧
    (run_task cfg fw_spec env).trace.docs = [] ∧
    ∀ f ∈ (run_task cfg fw_spec env).trace.files,
      f.path = joinPath env.cwd "BSE.json" ∧
      getKey? f.record "optical_transition" = none ∧
      (getKey? f.record "dielectric").isSome = true ∧
      f.content = json_dumps_dt f.record := by
  simp only [run_task, fileSink, dbSink]
  repeat' split
  all_goals
    simp_all [Trace.empty, truthyOpt, truthyV, getKey_delKey_self, getKey_delKey_ne,
      getKey_jsanitize, getKey_augment_de]

/-- C4: whenever the `env_chk`-resolved `db_file` is truthy and the task
succeeds, the sanitized `optical_transition` and `dielectric` values
obtained from the secondary reader are each serialized with the Monty
encoder and inserted as compressed blobs into `optical_transition_fs`
and `dielectric_fs`, the record gets `dielectric_fs_id` and the misspelt
`optical_transtiion_fs_id` set to the returned blob identifiers, the raw
fields are removed, and the record is inserted as a single document into
`BSE_results` (and no file is written). -/
theorem c4_db_sink (cfg : TaskConfig) (fw_spec : PyDict) (env : Env) (dbf : JVal)
    (hdb : env.envChk cfg.db_file fw_spec = some dbf)
    (ht : truthyV dbf = true)
    (hok : (run_task cfg fw_spec env).result = .ok none) :
    ∃ vr ot de id1 id2 c1 c2 doc,
      env.getVasprunOutcar env.cwd false false = .ok vr ∧
      ot = env.sanitizeVal vr.optical_transition ∧
      de = env.sanitizeVal vr.dielectric ∧
      (run_task cfg fw_spec env).trace.gridfs =
        [⟨"optical_transition_fs", json_dumps_monty ot, true, ot⟩,
         ⟨"dielectric_fs", json_dumps_monty de, true, de⟩] ∧
      env.insertGridfs "optical_transition_fs" (json_dumps_monty ot) true = .ok (id1, c1) ∧
      env.insertGridfs "dielectric_fs" (json_dumps_monty de) true = .ok (id2, c2) ∧
      (run_task cfg fw_spec env).trace.docs = [⟨"BSE_results", doc⟩] ∧
      getKey? doc "optical_transtiion_fs_id" = some (.str id1) ∧
      getKey? doc "dielectric_fs_id" = some (.str id2) ∧
      getKey? doc "optical_transition" = none ∧
      getKey? doc "dielectric" = none ∧
      (run_task cfg fw_spec env).trace.files = [] := by
  simp only [run_task, fileSink, dbSink, hdb, ht] at hok ⊢
  repeat' split at hok
  all_goals try (simp at hok)
  rename_i x1 dcal hrc x2 pv hpath x3 d0 hasm x4 vr hvr x5 a1 hcon x6 otv hot x7 id1 c1 hg1
    x8 dev hde x9 id2 c2 hg2 x10 w1 hd2 x11 w0 hd3 x12 a0 hins
  have hot2 : some (env.sanitizeVal vr.optical_transition) = some otv := by
    rw [← hot, getKey_jsanitize, getKey_augment_ot, Option.map_some']
  have hde2 : some (env.sanitizeVal vr.dielectric) = some dev := by
    rw [← hde, getKey_setKey_ne _ "optical_transtiion_fs_id" "dielectric" (JVal.str id1) (by decide),
      getKey_jsanitize, getKey_augment_de, Option.map_some']
  refine ⟨vr, otv, dev, id1, id2, c1, c2,
    delKey (delKey (setKey (setKey (jsanitizeRec env.sanitizeVal (augment d0 vr))
      "optical_transtiion_fs_id" (.str id1)) "dielectric_fs_id" (.str id2))
      "dielectric") "optical_transition",
    hvr, (Option.some.inj hot2).symm, (Option.some.inj hde2).symm,
    ?_, hg1, hg2, ?_, ?_, ?_, ?_, ?_, ?_⟩
  all_goals try (simp only [hrc, hpath, hasm, hvr, hcon, hot, hg1, hde, hg2, hd2, hd3, hins])
  · simp [Trace.empty]
  · simp [Trace.empty]
  · exact getKey_docRec_msp _ _ _
  · exact getKey_docRec_deid _ _ _
  · exact getKey_docRec_ot _ _ _
  · exact getKey_docRec_de _ _ _
  · simp [Trace.empty]

/-- C1 (amended): the two sinks are mutually exclusive per invocation,
and the persisted shapes are: a written file never contains
`optical_transition` but always still contains `dielectric` inline,
while an inserted document contains neither raw field and carries both
blob-identifier fields (`optical_transtiion_fs_id`, `dielectric_fs_id`). -/
theorem c1_sink_exclusivity (cfg : TaskConfig) (fw_spec : PyDict) (env : Env) :
    (∀ f ∈ (run_task cfg fw_spec env).trace.files,
        getKey? f.record "optical_transition" = none ∧
        (getKey? f.record "dielectric").isSome = true) ∧
    (∀ dc ∈ (run_task cfg fw_spec env).trace.docs,
        getKey? dc.doc "optical_transition" = none ∧
        getKey? dc.doc "dielectric" = none ∧
        (getKey? dc.doc "optical_transtiion_fs_id").isSome = true ∧
        (getKey? dc.doc "dielectric_fs_id").isSome = true) ∧
    ((run_task cfg fw_spec env).trace.files = [] ∨
      (run_task cfg fw_spec env).trace.docs = []) := by
  simp only [run_task, fileSink, dbSink]
  repeat' split
  all_goals
    simp_all [Trace.empty, getKey_delKey_self, getKey_delKey_ne, getKey_jsanitize,
      getKey_augment_de, getKey_docRec_msp, getKey_docRec_deid, getKey_docRec_ot,
      getKey_docRec_de, getKey_setKey2_msp, getKey_setKey2_deid]

/-- C1 (counterexample): a successful file-sink invocation persists the
raw `dielectric` payload inline in the written record, so it is not the
case that both fields are dropped before the file write. -/
theorem c1_counterexample :
    (run_task cfgGW fwSpecC envOkC).result = .ok none ∧
    (run_task cfgGW fwSpecC envOkC).trace.docs = [] ∧
    (run_task cfgGW fwSpecC envOkC).trace.gridfs = [] ∧
    (run_task cfgGW fwSpecC envOkC).trace.files.map FileEff.record
      = [[("task_label", JVal.str "bse run"), ("dielectric", JVal.num 7)]] ∧
    ((run_task cfgGW fwSpecC envOkC).trace.files.map fun f => getKey? f.record "dielectric")
      = [some (JVal.num 7)] := by
  exact ⟨rfl, rfl, rfl, rfl, rfl⟩

/-- Witness for C3 at a concrete file-sink invocation. -/
theorem c3_file_sink_witness :
    truthyOpt (envOkC.envChk cfgGW.db_file fwSpecC) = false ∧
    ((run_task cfgGW fwSpecC envOkC).trace.gridfs = [] ∧
      (run_task cfgGW fwSpecC envOkC).trace.docs = [] ∧
      ∀ f ∈ (run_task cfgGW fwSpecC envOkC).trace.files,
        f.path = joinPath envOkC.cwd "BSE.json" ∧
        getKey? f.record "optical_transition" = none ∧
        (getKey? f.record "dielectric").isSome = true ∧
        f.content = json_dumps_dt f.record) :=
  ⟨rfl, c3_file_sink cfgGW fwSpecC envOkC rfl⟩

/-- Witness for C4 at a concrete database-sink invocation. -/
theorem c4_db_sink_witness :
    envOkC.envChk cfgDb.db_file fwSpecC = some (JVal.str "db.json") ∧
    truthyV (JVal.str "db.json") = true ∧
    (run_task cfgDb fwSpecC envOkC).result = .ok none ∧
    ∃ vr ot de id1 id2 c1 c2 doc,
      envOkC.getVasprunOutcar envOkC.cwd false false = .ok vr ∧
      ot = envOkC.sanitizeVal vr.optical_transition ∧
      de = envOkC.sanitizeVal vr.dielectric ∧
      (run_task cfgDb fwSpecC envOkC).trace.gridfs =
        [⟨"optical_transition_fs", json_dumps_monty ot, true, ot⟩,
         ⟨"dielectric_fs", json_dumps_monty de, true, de⟩] ∧
      envOkC.insertGridfs "optical_transition_fs" (json_dumps_monty ot) true = .ok (id1, c1) ∧
      envOkC.insertGridfs "dielectric_fs" (json_dumps_monty de) true = .ok (id2, c2) ∧
      (run_task cfgDb fwSpecC envOkC).trace.docs = [⟨"BSE_results", doc⟩] ∧
      getKey? doc "optical_transtiion_fs_id" = some (.str id1) ∧
      getKey? doc "dielectric_fs_id" = some (.str id2) ∧
      getKey? doc "optical_transition" = none ∧
      getKey? doc "dielectric" = none ∧
      (run_task cfgDb fwSpecC envOkC).trace.files = [] :=
  ⟨rfl, rfl, rfl, c4_db_sink cfgDb fwSpecC envOkC (JVal.str "db.json") rfl rfl rfl⟩

/-- Witness for the amended C6 at a concrete invocation. -/
theorem c6_secondary_always_cwd_witness :
    "/bse" ∈ (run_task cfgGW fwSpecC envOkC).trace.vrunReads ∧ "/bse" = envOkC.cwd :=
  ⟨List.Mem.head _, c6_secondary_always_cwd cfgGW fwSpecC envOkC "/bse" (List.Mem.head _)⟩

/-- Witness for C7 at a concrete invocation. -/
theorem c7_drone_flags_witness :
    (droneSettings cfgGW envOkC, JVal.str "/gw") ∈ (run_task cfgGW fwSpecC envOkC).trace.parses ∧
    ((droneSettings cfgGW envOkC).parse_dos = cfgGW.parse_dos.getD (.b false) ∧
      (droneSettings cfgGW envOkC).parse_potcar_file = cfgGW.parse_potcar_file.getD (.b true) ∧
      (droneSettings cfgGW envOkC).bandstructure_mode = cfgGW.bandstructure_mode.getD (.b false) ∧
      (droneSettings cfgGW envOkC).parse_bader = cfgGW.parse_bader.getD (.b envOkC.bader_exe_exists) ∧
      (droneSettings cfgGW envOkC).parse_chgcar = cfgGW.parse_chgcar.getD (.b false) ∧
      (droneSettings cfgGW envOkC).parse_aeccar = cfgGW.parse_aeccar.getD (.b false) ∧
      (droneSettings cfgGW envOkC).store_volumetric_data
        = cfgGW.store_volumetric_data.getD envOkC.store_volumetric_data_default ∧
      (droneSettings cfgGW envOkC).additional_fields = cfgGW.additional_fields) :=
  ⟨List.Mem.head _, c7_drone_flags cfgGW fwSpecC envOkC _ _ (List.Mem.head _)⟩

/-- Witness for C8 at a concrete invocation whose primary parse fails. -/
theorem c8_no_catch_no_retry_witness :
    (run_task cfgGW fwSpecC envParseFailC).result = .error (.opFail "parse failed") ∧
    (run_task cfgGW fwSpecC envParseFailC).trace.docs = [] ∧
    (run_task cfgGW fwSpecC envParseFailC).trace.files = [] ∧
    (run_task cfgGW fwSpecC envParseFailC).trace.gridfs.length ≤ 2 :=
  ⟨rfl,
   ((c8_no_catch_no_retry cfgGW fwSpecC envParseFailC).1 _ rfl).1,
   ((c8_no_catch_no_retry cfgGW fwSpecC envParseFailC).1 _ rfl).2,
   (c8_no_catch_no_retry cfgGW fwSpecC envParseFailC).2.2.2.2.1⟩

/-- Witness for the amended C1 at a concrete invocation. -/
theorem c1_sink_exclusivity_witness :
    fEffC ∈ (run_task cfgGW fwSpecC envOkC).trace.files ∧
    getKey? fEffC.record "optical_transition" = none ∧
    (getKey? fEffC.record "dielectric").isSome = true ∧
    ((run_task cfgGW fwSpecC envOkC).trace.files = [] ∨
      (run_task cfgGW fwSpecC envOkC).trace.docs = []) :=
  ⟨List.Mem.head _,
   ((c1_sink_exclusivity cfgGW fwSpecC envOkC).1 fEffC (List.Mem.head _)).1,
   ((c1_sink_exclusivity cfgGW fwSpecC envOkC).1 fEffC (List.Mem.head _)).2,
   (c1_sink_exclusivity cfgGW fwSpecC envOkC).2.2⟩

end PyGWBSE
